import Mathlib

/-!
Verification of the `aplus-audit-utility` reliability core: the rate limiter
with integrated circuit breaker (`src/core/rate_limiter.py`), the AI analyzer
fallback path (`src/analyzers/ai_analyzer.py`), the response validation schema
(`src/core/validation.py`), and the orchestrator's aggregation and analysis
phases (`src/core/orchestrator.py`).

Time is modelled as an integer number of seconds (`Int`); `datetime.utcnow()`
becomes an explicit `now` argument threaded into each operation.  The mutable
`RateLimiter` object becomes a state record `RLState` with explicit state
passing.  Backoff wait times (floats in the source) are modelled as rationals.
-/

namespace AuditUtility

/-- Circuit breaker states, from `CircuitState` in `src/core/rate_limiter.py`. -/
inductive CircuitState where
  | CLOSED
  | OPEN
  | HALF_OPEN
deriving DecidableEq, Repr

/-- Rate limiting configuration, from `RateLimitConfig` in
`src/core/rate_limiter.py`. -/
structure RateLimitConfig where
  max_requests_per_minute : Nat := 60
  max_requests_per_hour : Nat := 1000
  max_concurrent_requests : Nat := 5
  failure_threshold : Nat := 5
  success_threshold : Nat := 2
  timeout_seconds : Int := 60
  request_timeout_seconds : Int := 30
deriving DecidableEq, Repr

/-- The mutable state of a `RateLimiter` instance: the two sliding-window
deques of request timestamps, the in-flight count, the circuit breaker
bookkeeping and the metric counters (`RateLimiter.__init__`). -/
structure RLState where
  minute_requests : List Int
  hour_requests : List Int
  concurrent_count : Int
  circuit_state : CircuitState
  failure_count : Nat
  success_count : Nat
  circuit_opened_at : Option Int
  total_requests : Nat
  total_failures : Nat
  total_rate_limited : Nat
  total_circuit_opens : Nat
deriving DecidableEq, Repr

/-- The freshly constructed limiter state (`RateLimiter.__init__`). -/
def RLState.init : RLState :=
  { minute_requests := []
    hour_requests := []
    concurrent_count := 0
    circuit_state := .CLOSED
    failure_count := 0
    success_count := 0
    circuit_opened_at := none
    total_requests := 0
    total_failures := 0
    total_rate_limited := 0
    total_circuit_opens := 0 }

/-- `RateLimiter._check_circuit(now)`: returns whether the circuit permits a
request, possibly transitioning OPEN → HALF_OPEN when the open timeout has
elapsed (resetting the success counter). -/
def check_circuit (cfg : RateLimitConfig) (now : Int) (s : RLState) :
    Bool × RLState :=
  match s.circuit_state with
  | .CLOSED => (true, s)
  | .OPEN =>
    match s.circuit_opened_at with
    | some openedAt =>
      if cfg.timeout_seconds ≤ now - openedAt then
        (true, { s with circuit_state := .HALF_OPEN, success_count := 0 })
      else
        (false, s)
    | none => (false, s)
  | .HALF_OPEN => (true, s)

/-- `RateLimiter._cleanup_old_requests(now)`: purge entries older than 60s
from the minute window and older than 3600s from the hour window. -/
def cleanup_old_requests (now : Int) (s : RLState) : RLState :=
  { s with
    minute_requests := s.minute_requests.dropWhile (fun t => decide (t < now - 60))
    hour_requests := s.hour_requests.dropWhile (fun t => decide (t < now - 3600)) }

/-- `RateLimiter.acquire()`: circuit check, lazy window purge, then the three
capacity checks; on success append `now` to both windows and bump the
in-flight and total-request counters. -/
def acquire (cfg : RateLimitConfig) (now : Int) (s : RLState) :
    Bool × RLState :=
  let c := check_circuit cfg now s
  if c.1 = false then
    (false, c.2)
  else
    let s1 := cleanup_old_requests now c.2
    if (cfg.max_concurrent_requests : Int) ≤ s1.concurrent_count then
      (false, { s1 with total_rate_limited := s1.total_rate_limited + 1 })
    else if cfg.max_requests_per_minute ≤ s1.minute_requests.length then
      (false, { s1 with total_rate_limited := s1.total_rate_limited + 1 })
    else if cfg.max_requests_per_hour ≤ s1.hour_requests.length then
      (false, { s1 with total_rate_limited := s1.total_rate_limited + 1 })
    else
      (true,
        { s1 with
          minute_requests := s1.minute_requests ++ [now]
          hour_requests := s1.hour_requests ++ [now]
          concurrent_count := s1.concurrent_count + 1
          total_requests := s1.total_requests + 1 })

/-- The intermediate state of `acquire` after the circuit check and the
window purge (the `s1` reached when the circuit permitted the request). -/
def postCircuit (cfg : RateLimitConfig) (now : Int) (s : RLState) : RLState :=
  cleanup_old_requests now (check_circuit cfg now s).2

/-- `RateLimiter._record_success()`. -/
def record_success (cfg : RateLimitConfig) (s : RLState) : RLState :=
  if s.circuit_state = .HALF_OPEN then
    let sc := s.success_count + 1
    if cfg.success_threshold ≤ sc then
      { s with circuit_state := .CLOSED, failure_count := 0, success_count := 0 }
    else
      { s with success_count := sc }
  else
    if 0 < s.failure_count then { s with failure_count := 0 } else s

/-- `RateLimiter._record_failure()`; `now` stands for the
`datetime.utcnow()` read when the circuit opens. -/
def record_failure (cfg : RateLimitConfig) (now : Int) (s : RLState) : RLState :=
  let s0 := { s with total_failures := s.total_failures + 1 }
  if s0.circuit_state = .HALF_OPEN then
    { s0 with
      circuit_state := .OPEN
      circuit_opened_at := some now
      total_circuit_opens := s0.total_circuit_opens + 1 }
  else if s0.circuit_state = .CLOSED then
    let fc := s0.failure_count + 1
    if cfg.failure_threshold ≤ fc then
      { s0 with
        failure_count := fc
        circuit_state := .OPEN
        circuit_opened_at := some now
        total_circuit_opens := s0.total_circuit_opens + 1 }
    else
      { s0 with failure_count := fc }
  else
    s0

/-- `RateLimiter.release(success)`: decrement the in-flight count (floored at
zero); only when a slot was actually held, route to the circuit-breaker
bookkeeping. -/
def release (cfg : RateLimitConfig) (now : Int) (success : Bool) (s : RLState) :
    RLState :=
  if 0 < s.concurrent_count then
    let s1 := { s with concurrent_count := max 0 (s.concurrent_count - 1) }
    if success then record_success cfg s1 else record_failure cfg now s1
  else
    s

/-- A call event against the limiter: an `acquire` at a given time, or a
`release` at a given time with a success flag. -/
inductive RLEvent where
  | acq (now : Int)
  | rel (now : Int) (success : Bool)
deriving DecidableEq, Repr

/-- One event step of the limiter state machine. -/
def rlStep (cfg : RateLimitConfig) (s : RLState) (e : RLEvent) : RLState :=
  match e with
  | .acq now => (acquire cfg now s).2
  | .rel now success => release cfg now success s

/-- Run a sequence of `acquire`/`release` events from a state. -/
def rlRun (cfg : RateLimitConfig) (s : RLState) (es : List RLEvent) : RLState :=
  es.foldl (rlStep cfg) s

/-- A sequence of consecutive `release(success)` calls at the given times
(first element of the list released first). -/
def releaseList (cfg : RateLimitConfig) (success : Bool) (times : List Int)
    (s : RLState) : RLState :=
  times.foldl (fun s t => release cfg t success s) s

deriving instance DecidableEq for Except

/-- Observable outcome of one `execute_with_retry` call: the returned value or
raised error (`Except.error none` is the generic "Request failed after all
retries" error raised when no exception was captured), the final limiter
state, the number of times the wrapped operation was invoked, and the list of
backoff sleep durations in order. -/
structure RetryResult (E A : Type) where
  result : Except (Option E) A
  finalState : RLState
  opCalls : Nat
  sleeps : List ℚ
deriving DecidableEq, Repr

/-- The loop body of `RateLimiter.execute_with_retry`.  `remaining` is the
number of loop iterations left (`max_retries + 1` at entry), `attempt` the
Python loop index, `times attempt` the wall-clock time of iteration
`attempt`, and `op attempt` the outcome of running the wrapped operation at
iteration `attempt` (an exception subsumes `asyncio.TimeoutError`).  A
rate-limited iteration sleeps `waitTime` and multiplies it by `backoff`; a
failed operation releases the slot with `success=false` and, when attempts
remain, sleeps and grows the wait; a successful operation releases with
`success=true` and returns at once. -/
def retryLoop (cfg : RateLimitConfig) (times : Nat → Int)
    (op : Nat → Except E A) (backoff : ℚ) :
    Nat → Nat → ℚ → Option E → RLState → Nat → List ℚ → RetryResult E A
  | 0, _, _, lastE, s, opCalls, sleeps => ⟨.error lastE, s, opCalls, sleeps⟩
  | r + 1, attempt, waitTime, lastE, s, opCalls, sleeps =>
    let p := acquire cfg (times attempt) s
    if p.1 = false then
      retryLoop cfg times op backoff r (attempt + 1) (waitTime * backoff)
        lastE p.2 opCalls (sleeps ++ [waitTime])
    else
      match op attempt with
      | .ok a =>
        ⟨.ok a, release cfg (times attempt) true p.2, opCalls + 1, sleeps⟩
      | .error e =>
        let s2 := release cfg (times attempt) false p.2
        match r with
        | 0 => ⟨.error (some e), s2, opCalls + 1, sleeps⟩
        | _ + 1 =>
          retryLoop cfg times op backoff r (attempt + 1)
            (waitTime * backoff) (some e) s2 (opCalls + 1) (sleeps ++ [waitTime])

/-- `RateLimiter.execute_with_retry(func, max_retries, backoff_factor)`:
loop over `attempt in 0..=max_retries` with initial wait time 1.0 second. -/
def execute_with_retry (cfg : RateLimitConfig) (times : Nat → Int)
    (op : Nat → Except E A) (max_retries : Nat) (backoff_factor : ℚ)
    (s : RLState) : RetryResult E A :=
  retryLoop cfg times op backoff_factor (max_retries + 1) 0 1 none s 0 []

/-! ### AI analyzer and response validation -/

/-- A security finding as consumed by the analyzer and the orchestrator: the
fields of the Python finding dict that the verified code paths read.
`collector_name` is stamped onto the finding during aggregation. -/
structure Finding where
  check_id : String
  severity : String
  description : String
  collector_name : String
deriving DecidableEq, Repr

/-- An AI analysis result dict: `risk_score`, `executive_summary`,
`critical_issues`, `recommendations`.  Used both for the parsed candidate
response and for the returned analysis. -/
structure AnalysisDict where
  risk_score : Int
  executive_summary : String
  critical_issues : List String
  recommendations : List String
deriving DecidableEq, Repr

/-- Does `needle` occur as a leading block of `hay`?  (Helper for the
substring checks of `validation.py`.) -/
def leadMatch : List Char → List Char → Bool
  | [], _ => true
  | _ :: _, [] => false
  | n :: ns, h :: hs => n = h && leadMatch ns hs

/-- Python's `needle in hay` on character lists. -/
def hasSub (needle : List Char) : List Char → Bool
  | [] => leadMatch needle []
  | h :: hs => leadMatch needle (h :: hs) || hasSub needle hs

/-- `s.lower()` as a character list. -/
def lowerChars (s : String) : List Char :=
  s.toList.map Char.toLower

/-- The `validate_summary` field validator of `AIAnalysisResponseSchema`:
reject `<script` / `</script` in the lowered text. -/
def summaryClean (s : String) : Bool :=
  !(hasSub "<script".toList (lowerChars s)) &&
  !(hasSub "</script".toList (lowerChars s))

/-- The `validate_list_items` field validator of `AIAnalysisResponseSchema`
applied to one item: at most 500 characters, no `<script`, no
`javascript:`. -/
def listItemClean (item : String) : Bool :=
  item.length ≤ 500 &&
  !(hasSub "<script".toList (lowerChars item)) &&
  !(hasSub "javascript:".toList (lowerChars item))

/-- `validate_ai_response` / `AIAnalysisResponseSchema` from
`src/core/validation.py`: field constraints (`risk_score` in [0,100],
`executive_summary` length in [10,2000], at most 50 `critical_issues`,
1–50 `recommendations`) plus the two field validators; on success the
summary and the list items are stripped of surrounding whitespace. -/
def validate_ai_response (r : AnalysisDict) : Option AnalysisDict :=
  if 0 ≤ r.risk_score ∧ r.risk_score ≤ 100
      ∧ 10 ≤ r.executive_summary.length ∧ r.executive_summary.length ≤ 2000
      ∧ summaryClean r.executive_summary = true
      ∧ r.critical_issues.length ≤ 50
      ∧ (∀ i ∈ r.critical_issues, listItemClean i = true)
      ∧ 1 ≤ r.recommendations.length ∧ r.recommendations.length ≤ 50
      ∧ (∀ i ∈ r.recommendations, listItemClean i = true) then
    some
      { r with
        executive_summary := r.executive_summary.trim
        critical_issues := r.critical_issues.map String.trim
        recommendations := r.recommendations.map String.trim }
  else
    none

/-- Severity weight table of `AIAnalyzer._fallback_analysis`
(`severity_weights.get(f["severity"], 0)`). -/
def severity_weights (sev : String) : Nat :=
  if sev = "CRITICAL" then 50
  else if sev = "HIGH" then 25
  else if sev = "MEDIUM" then 10
  else if sev = "LOW" then 5
  else if sev = "INFO" then 1
  else 0

/-- `f["severity"] in ("CRITICAL", "HIGH")`. -/
def isCriticalOrHigh (f : Finding) : Bool :=
  f.severity = "CRITICAL" || f.severity = "HIGH"

/-- `AIAnalyzer._fallback_analysis(findings)`: deterministic severity-weight
scoring, templated executive summary, first 10 CRITICAL/HIGH findings as
`"{check_id}: {description}"`, fixed four recommendations. -/
def fallback_analysis (findings : List Finding) : AnalysisDict :=
  let risk_score : Nat :=
    min 100 (findings.map (fun f => severity_weights f.severity)).sum
  let critical_issues :=
    ((findings.filter isCriticalOrHigh).map
      (fun f => f.check_id ++ ": " ++ f.description)).take 10
  { risk_score := (risk_score : Int)
    executive_summary :=
      "Audit identified " ++ toString findings.length ++
        " findings requiring attention. " ++ toString critical_issues.length ++
        " critical issues detected."
    critical_issues := critical_issues
    recommendations :=
      ["Review and address critical findings immediately",
       "Apply security patches and updates",
       "Implement recommended security controls",
       "Schedule regular security audits"] }

/-- Environment outcome of the provider call inside
`AIAnalyzer.analyze_findings`: the retry executor raised, the content failed
JSON decoding or type coercion, or it parsed into a candidate response. -/
inductive ProviderOutcome where
  | raised
  | badContent
  | parsed (r : AnalysisDict)
deriving DecidableEq, Repr

/-- `AIAnalyzer.analyze_findings(audit_data, findings)`: if no live client,
fall back immediately (no provider call); otherwise a raised executor error,
a parse failure, or a validation failure each fall back; only a validated
response is returned as-is.  The second component records whether a provider
call was made. -/
def analyze_findings (hasClient : Bool) (outcome : ProviderOutcome)
    (findings : List Finding) : AnalysisDict × Bool :=
  if hasClient = false then
    (fallback_analysis findings, false)
  else
    match outcome with
    | .raised => (fallback_analysis findings, true)
    | .badContent => (fallback_analysis findings, true)
    | .parsed r =>
      match validate_ai_response r with
      | some v => (v, true)
      | none => (fallback_analysis findings, true)

/-! ### Orchestrator: aggregation and the AI-analysis phase -/

/-- `severity_order.get(x["severity"], 999)` from
`AuditOrchestrator._aggregate_findings`. -/
def severity_order (sev : String) : Nat :=
  if sev = "CRITICAL" then 0
  else if sev = "HIGH" then 1
  else if sev = "MEDIUM" then 2
  else if sev = "LOW" then 3
  else if sev = "INFO" then 4
  else 999

/-- The flatten-and-stamp half of `_aggregate_findings`: every collector's
findings in order, each stamped with its collector's name. -/
def stampFindings (collectorResults : List (String × List Finding)) :
    List Finding :=
  collectorResults.flatMap
    (fun p => p.2.map (fun f => { f with collector_name := p.1 }))

/-- `AuditOrchestrator._aggregate_findings`: flatten, stamp, then stable-sort
by the severity order (Python `list.sort` is stable; `List.mergeSort` is the
stable sort). -/
def aggregate_findings (collectorResults : List (String × List Finding)) :
    List Finding :=
  (stampFindings collectorResults).mergeSort
    (fun a b => severity_order a.severity ≤ severity_order b.severity)

/-- The canned healthy-system analysis synthesized by `run_audit_async` when
there are no findings. -/
def canned_healthy_analysis : AnalysisDict :=
  { risk_score := 0
    executive_summary := "No security or configuration issues detected."
    critical_issues := []
    recommendations := ["Continue regular monitoring and updates"] }

/-- Phase 3 of `AuditOrchestrator.run_audit_async`: call the analyzer iff the
aggregated findings list is nonempty, else synthesize the canned result.  The
second component records whether the analyzer was invoked. -/
def analysis_phase (all_findings : List Finding)
    (analyzer : List Finding → AnalysisDict) : AnalysisDict × Bool :=
  if all_findings.isEmpty then
    (canned_healthy_analysis, false)
  else
    (analyzer all_findings, true)

/-! ### Rate limiter lemmas -/

lemma check_circuit_preserves (cfg : RateLimitConfig) (now : Int) (s : RLState) :
    (check_circuit cfg now s).2.minute_requests = s.minute_requests
    ∧ (check_circuit cfg now s).2.hour_requests = s.hour_requests
    ∧ (check_circuit cfg now s).2.concurrent_count = s.concurrent_count
    ∧ (check_circuit cfg now s).2.failure_count = s.failure_count
    ∧ (check_circuit cfg now s).2.circuit_opened_at = s.circuit_opened_at
    ∧ (check_circuit cfg now s).2.total_requests = s.total_requests
    ∧ (check_circuit cfg now s).2.total_failures = s.total_failures
    ∧ (check_circuit cfg now s).2.total_rate_limited = s.total_rate_limited
    ∧ (check_circuit cfg now s).2.total_circuit_opens = s.total_circuit_opens := by
  obtain ⟨mr, hr, cc, cs, fc, sc, coa, tr, tf, trl, tco⟩ := s
  cases cs with
  | CLOSED => exact ⟨rfl, rfl, rfl, rfl, rfl, rfl, rfl, rfl, rfl⟩
  | HALF_OPEN => exact ⟨rfl, rfl, rfl, rfl, rfl, rfl, rfl, rfl, rfl⟩
  | OPEN =>
    cases coa with
    | none => exact ⟨rfl, rfl, rfl, rfl, rfl, rfl, rfl, rfl, rfl⟩
    | some t0 =>
      by_cases h : cfg.timeout_seconds ≤ now - t0
      · simp [check_circuit, h]
      · simp [check_circuit, h]

lemma check_circuit_false_eq (cfg : RateLimitConfig) (now : Int) (s : RLState)
    (h : (check_circuit cfg now s).1 = false) :
    (check_circuit cfg now s).2 = s := by
  obtain ⟨mr, hr, cc, cs, fc, sc, coa, tr, tf, trl, tco⟩ := s
  cases cs with
  | CLOSED => rfl
  | HALF_OPEN => rfl
  | OPEN =>
    cases coa with
    | none => rfl
    | some t0 =>
      by_cases hto : cfg.timeout_seconds ≤ now - t0
      · exact absurd h (by simp [check_circuit, hto])
      · simp [check_circuit, hto]

lemma check_circuit_closed (cfg : RateLimitConfig) (now : Int) (s : RLState)
    (h : s.circuit_state = .CLOSED) :
    check_circuit cfg now s = (true, s) := by
  obtain ⟨mr, hr, cc, cs, fc, sc, coa, tr, tf, trl, tco⟩ := s
  cases cs <;> simp_all [check_circuit]

lemma check_circuit_half_open (cfg : RateLimitConfig) (now : Int) (s : RLState)
    (h : s.circuit_state = .HALF_OPEN) :
    check_circuit cfg now s = (true, s) := by
  obtain ⟨mr, hr, cc, cs, fc, sc, coa, tr, tf, trl, tco⟩ := s
  cases cs <;> simp_all [check_circuit]

lemma check_circuit_open_blocked (cfg : RateLimitConfig) (now : Int)
    (s : RLState) (t0 : Int) (hcs : s.circuit_state = .OPEN)
    (hoa : s.circuit_opened_at = some t0)
    (h : now - t0 < cfg.timeout_seconds) :
    check_circuit cfg now s = (false, s) := by
  obtain ⟨mr, hr, cc, cs, fc, sc, coa, tr, tf, trl, tco⟩ := s
  cases cs <;> simp_all [check_circuit]

lemma check_circuit_open_elapsed (cfg : RateLimitConfig) (now : Int)
    (s : RLState) (t0 : Int) (hcs : s.circuit_state = .OPEN)
    (hoa : s.circuit_opened_at = some t0)
    (h : cfg.timeout_seconds ≤ now - t0) :
    check_circuit cfg now s =
      (true, { s with circuit_state := .HALF_OPEN, success_count := 0 }) := by
  obtain ⟨mr, hr, cc, cs, fc, sc, coa, tr, tf, trl, tco⟩ := s
  cases cs <;> simp_all [check_circuit]

lemma postCircuit_concurrent (cfg : RateLimitConfig) (now : Int) (s : RLState) :
    (postCircuit cfg now s).concurrent_count = s.concurrent_count :=
  (check_circuit_preserves cfg now s).2.2.1

lemma postCircuit_minute (cfg : RateLimitConfig) (now : Int) (s : RLState) :
    (postCircuit cfg now s).minute_requests =
      s.minute_requests.dropWhile (fun t => decide (t < now - 60)) := by
  show ((check_circuit cfg now s).2.minute_requests).dropWhile _ = _
  rw [(check_circuit_preserves cfg now s).1]

lemma postCircuit_hour (cfg : RateLimitConfig) (now : Int) (s : RLState) :
    (postCircuit cfg now s).hour_requests =
      s.hour_requests.dropWhile (fun t => decide (t < now - 3600)) := by
  show ((check_circuit cfg now s).2.hour_requests).dropWhile _ = _
  rw [(check_circuit_preserves cfg now s).2.1]

lemma postCircuit_total_rate_limited (cfg : RateLimitConfig) (now : Int)
    (s : RLState) :
    (postCircuit cfg now s).total_rate_limited = s.total_rate_limited :=
  (check_circuit_preserves cfg now s).2.2.2.2.2.2.2.1

lemma postCircuit_total_requests (cfg : RateLimitConfig) (now : Int)
    (s : RLState) :
    (postCircuit cfg now s).total_requests = s.total_requests :=
  (check_circuit_preserves cfg now s).2.2.2.2.2.1

lemma postCircuit_failure_count (cfg : RateLimitConfig) (now : Int)
    (s : RLState) :
    (postCircuit cfg now s).failure_count = s.failure_count :=
  (check_circuit_preserves cfg now s).2.2.2.1

lemma acquire_circuit_false (cfg : RateLimitConfig) (now : Int) (s : RLState)
    (h : (check_circuit cfg now s).1 = false) :
    acquire cfg now s = (false, s) := by
  simp [acquire, h, check_circuit_false_eq cfg now s h]

lemma acquire_circuit_true (cfg : RateLimitConfig) (now : Int) (s : RLState)
    (h : (check_circuit cfg now s).1 = true) :
    acquire cfg now s =
      (if (cfg.max_concurrent_requests : Int) ≤
          (postCircuit cfg now s).concurrent_count then
        (false, { postCircuit cfg now s with
          total_rate_limited := (postCircuit cfg now s).total_rate_limited + 1 })
      else if cfg.max_requests_per_minute ≤
          (postCircuit cfg now s).minute_requests.length then
        (false, { postCircuit cfg now s with
          total_rate_limited := (postCircuit cfg now s).total_rate_limited + 1 })
      else if cfg.max_requests_per_hour ≤
          (postCircuit cfg now s).hour_requests.length then
        (false, { postCircuit cfg now s with
          total_rate_limited := (postCircuit cfg now s).total_rate_limited + 1 })
      else
        (true, { postCircuit cfg now s with
          minute_requests := (postCircuit cfg now s).minute_requests ++ [now]
          hour_requests := (postCircuit cfg now s).hour_requests ++ [now]
          concurrent_count := (postCircuit cfg now s).concurrent_count + 1
          total_requests := (postCircuit cfg now s).total_requests + 1 })) := by
  simp only [acquire, postCircuit]
  rw [if_neg (by simp [h])]

lemma record_success_preserves (cfg : RateLimitConfig) (s : RLState) :
    (record_success cfg s).concurrent_count = s.concurrent_count
    ∧ (record_success cfg s).minute_requests = s.minute_requests
    ∧ (record_success cfg s).hour_requests = s.hour_requests
    ∧ (record_success cfg s).total_rate_limited = s.total_rate_limited
    ∧ (record_success cfg s).total_requests = s.total_requests := by
  simp only [record_success]
  split_ifs <;> exact ⟨rfl, rfl, rfl, rfl, rfl⟩

lemma record_failure_preserves (cfg : RateLimitConfig) (now : Int)
    (s : RLState) :
    (record_failure cfg now s).concurrent_count = s.concurrent_count
    ∧ (record_failure cfg now s).minute_requests = s.minute_requests
    ∧ (record_failure cfg now s).hour_requests = s.hour_requests
    ∧ (record_failure cfg now s).total_rate_limited = s.total_rate_limited
    ∧ (record_failure cfg now s).total_requests = s.total_requests := by
  simp only [record_failure]
  split_ifs <;> exact ⟨rfl, rfl, rfl, rfl, rfl⟩

lemma release_concurrent_nonneg (cfg : RateLimitConfig) (now : Int) (b : Bool)
    (s : RLState) (h : 0 ≤ s.concurrent_count) :
    0 ≤ (release cfg now b s).concurrent_count := by
  simp only [release]
  split_ifs
  · rw [(record_success_preserves cfg _).1]
    exact le_max_left 0 _
  · rw [(record_failure_preserves cfg now _).1]
    exact le_max_left 0 _
  · exact h

lemma acquire_concurrent_cases (cfg : RateLimitConfig) (now : Int)
    (s : RLState) :
    (acquire cfg now s).2.concurrent_count = s.concurrent_count ∨
    (acquire cfg now s).2.concurrent_count = s.concurrent_count + 1 := by
  by_cases h : (check_circuit cfg now s).1 = false
  · rw [acquire_circuit_false cfg now s h]
    exact Or.inl rfl
  · rw [acquire_circuit_true cfg now s (by simpa using h)]
    split_ifs
    · exact Or.inl (postCircuit_concurrent cfg now s)
    · exact Or.inl (postCircuit_concurrent cfg now s)
    · exact Or.inl (postCircuit_concurrent cfg now s)
    · right
      show (postCircuit cfg now s).concurrent_count + 1 = _
      rw [postCircuit_concurrent cfg now s]

/-! ### Theorems: the acquire gate (C2) and rejection side effects (C3) -/

/-- C2: `acquire` returns true iff the circuit permits the request and,
after the lazy purge of both windows, the in-flight count and both window
sizes are strictly below their configured ceilings; on success it appends
`now` to both purged windows and increments the in-flight and total-request
counters, so immediately after a successful `acquire` the in-flight count is
between 1 and `max_concurrent_requests`; and no `acquire`/`release` sequence
ever drives the in-flight count negative. -/
theorem acquire_gate_correct (cfg : RateLimitConfig) :
    (∀ (now : Int) (s : RLState),
      (acquire cfg now s).1 = true ↔
        ((check_circuit cfg now s).1 = true
          ∧ s.concurrent_count < (cfg.max_concurrent_requests : Int)
          ∧ (s.minute_requests.dropWhile
              (fun t => decide (t < now - 60))).length < cfg.max_requests_per_minute
          ∧ (s.hour_requests.dropWhile
              (fun t => decide (t < now - 3600))).length < cfg.max_requests_per_hour))
    ∧ (∀ (now : Int) (s : RLState), (acquire cfg now s).1 = true →
        (acquire cfg now s).2.minute_requests =
          s.minute_requests.dropWhile (fun t => decide (t < now - 60)) ++ [now]
        ∧ (acquire cfg now s).2.hour_requests =
            s.hour_requests.dropWhile (fun t => decide (t < now - 3600)) ++ [now]
        ∧ (acquire cfg now s).2.concurrent_count = s.concurrent_count + 1
        ∧ (acquire cfg now s).2.total_requests = s.total_requests + 1)
    ∧ (∀ (now : Int) (s : RLState), 0 ≤ s.concurrent_count →
        (acquire cfg now s).1 = true →
        1 ≤ (acquire cfg now s).2.concurrent_count
        ∧ (acquire cfg now s).2.concurrent_count ≤
            (cfg.max_concurrent_requests : Int))
    ∧ (∀ (s : RLState) (es : List RLEvent), 0 ≤ s.concurrent_count →
        0 ≤ (rlRun cfg s es).concurrent_count) := by
  have key : ∀ (now : Int) (s : RLState), (acquire cfg now s).1 = true →
      acquire cfg now s =
        (true, { postCircuit cfg now s with
          minute_requests := (postCircuit cfg now s).minute_requests ++ [now]
          hour_requests := (postCircuit cfg now s).hour_requests ++ [now]
          concurrent_count := (postCircuit cfg now s).concurrent_count + 1
          total_requests := (postCircuit cfg now s).total_requests + 1 })
      ∧ s.concurrent_count < (cfg.max_concurrent_requests : Int)
      ∧ (s.minute_requests.dropWhile
          (fun t => decide (t < now - 60))).length < cfg.max_requests_per_minute
      ∧ (s.hour_requests.dropWhile
          (fun t => decide (t < now - 3600))).length < cfg.max_requests_per_hour := by
    intro now s htrue
    by_cases h : (check_circuit cfg now s).1 = false
    · rw [acquire_circuit_false cfg now s h] at htrue
      exact absurd htrue (by simp)
    · rw [acquire_circuit_true cfg now s (by simpa using h)] at htrue ⊢
      by_cases h1 : (cfg.max_concurrent_requests : Int) ≤
          (postCircuit cfg now s).concurrent_count
      · rw [if_pos h1] at htrue
        exact absurd htrue (by simp)
      · rw [if_neg h1] at htrue ⊢
        by_cases h2 : cfg.max_requests_per_minute ≤
            (postCircuit cfg now s).minute_requests.length
        · rw [if_pos h2] at htrue
          exact absurd htrue (by simp)
        · rw [if_neg h2] at htrue ⊢
          by_cases h3 : cfg.max_requests_per_hour ≤
              (postCircuit cfg now s).hour_requests.length
          · rw [if_pos h3] at htrue
            exact absurd htrue (by simp)
          · rw [if_neg h3] at htrue ⊢
            rw [postCircuit_concurrent cfg now s] at h1
            rw [postCircuit_minute cfg now s] at h2
            rw [postCircuit_hour cfg now s] at h3
            exact ⟨rfl, by omega, by omega, by omega⟩
  refine ⟨?_, ?_, ?_, ?_⟩
  · intro now s
    constructor
    · intro htrue
      obtain ⟨_, h1, h2, h3⟩ := key now s htrue
      refine ⟨?_, h1, h2, h3⟩
      by_cases h : (check_circuit cfg now s).1 = false
      · rw [acquire_circuit_false cfg now s h] at htrue
        exact absurd htrue (by simp)
      · simpa using h
    · rintro ⟨hcirc, h1, h2, h3⟩
      rw [acquire_circuit_true cfg now s hcirc]
      rw [if_neg (by rw [postCircuit_concurrent cfg now s]; omega),
        if_neg (by rw [postCircuit_minute cfg now s]; omega),
        if_neg (by rw [postCircuit_hour cfg now s]; omega)]
  · intro now s htrue
    obtain ⟨heq, _, _, _⟩ := key now s htrue
    rw [heq]
    exact ⟨by rw [postCircuit_minute cfg now s], by rw [postCircuit_hour cfg now s],
      by show (postCircuit cfg now s).concurrent_count + 1 = _
         rw [postCircuit_concurrent cfg now s],
      by show (postCircuit cfg now s).total_requests + 1 = _
         rw [postCircuit_total_requests cfg now s]⟩
  · intro now s hnn htrue
    obtain ⟨heq, hlt, _, _⟩ := key now s htrue
    rw [heq]
    constructor
    · show 1 ≤ (postCircuit cfg now s).concurrent_count + 1
      rw [postCircuit_concurrent cfg now s]
      omega
    · show (postCircuit cfg now s).concurrent_count + 1 ≤ _
      rw [postCircuit_concurrent cfg now s]
      omega
  · intro s es
    induction es generalizing s with
    | nil => exact fun h => h
    | cons e rest ih =>
      intro h
      have hstep : 0 ≤ (rlStep cfg s e).concurrent_count := by
        cases e with
        | acq now =>
          rcases acquire_concurrent_cases cfg now s with hc | hc
          · simpa [rlStep, hc] using h
          · simp only [rlStep, hc]
            omega
        | rel now b => exact release_concurrent_nonneg cfg now b s h
      exact ih (rlStep cfg s e) hstep

/-- C2 witness: from the fresh state, `acquire` at time 0 succeeds (with the
default configuration) and the in-flight count becomes 1. -/
theorem acquire_gate_correct_witness :
    (acquire { } 0 RLState.init).1 = true
    ∧ 1 ≤ (acquire { } 0 RLState.init).2.concurrent_count
    ∧ (acquire { } 0 RLState.init).2.concurrent_count ≤
        (({ } : RateLimitConfig).max_concurrent_requests : Int)
    ∧ 0 ≤ (rlRun { } RLState.init [.acq 0, .rel 1 true, .rel 2 false]).concurrent_count := by
  have h1 : (acquire { } 0 RLState.init).1 = true := by decide
  have h2 := (acquire_gate_correct { }).2.2.1 0 RLState.init (by decide) h1
  have h3 := (acquire_gate_correct { }).2.2.2 RLState.init
    [.acq 0, .rel 1 true, .rel 2 false] (by decide)
  exact ⟨h1, h2.1, h2.2, h3⟩

lemma releaseList_nil (cfg : RateLimitConfig) (b : Bool) (s : RLState) :
    releaseList cfg b [] s = s := rfl

lemma releaseList_cons (cfg : RateLimitConfig) (b : Bool) (t : Int)
    (ts : List Int) (s : RLState) :
    releaseList cfg b (t :: ts) s = releaseList cfg b ts (release cfg t b s) :=
  rfl

lemma releaseList_append (cfg : RateLimitConfig) (b : Bool) (ts1 ts2 : List Int)
    (s : RLState) :
    releaseList cfg b (ts1 ++ ts2) s =
      releaseList cfg b ts2 (releaseList cfg b ts1 s) := by
  simp [releaseList, List.foldl_append]

lemma release_false_closed_no_trip (cfg : RateLimitConfig) (t : Int)
    (s : RLState) (hcs : s.circuit_state = .CLOSED)
    (hcc : 0 < s.concurrent_count)
    (hth : s.failure_count + 1 < cfg.failure_threshold) :
    release cfg t false s =
      { s with
        concurrent_count := s.concurrent_count - 1
        total_failures := s.total_failures + 1
        failure_count := s.failure_count + 1 } := by
  have hmax : max 0 (s.concurrent_count - 1) = s.concurrent_count - 1 :=
    max_eq_right (by omega)
  have hnle : ¬ cfg.failure_threshold ≤ s.failure_count + 1 := by omega
  simp [release, hcc, hmax, record_failure, hcs, hnle]

lemma release_false_closed_trip (cfg : RateLimitConfig) (t : Int)
    (s : RLState) (hcs : s.circuit_state = .CLOSED)
    (hcc : 0 < s.concurrent_count)
    (hth : cfg.failure_threshold ≤ s.failure_count + 1) :
    release cfg t false s =
      { s with
        concurrent_count := s.concurrent_count - 1
        total_failures := s.total_failures + 1
        failure_count := s.failure_count + 1
        circuit_state := .OPEN
        circuit_opened_at := some t
        total_circuit_opens := s.total_circuit_opens + 1 } := by
  have hmax : max 0 (s.concurrent_count - 1) = s.concurrent_count - 1 :=
    max_eq_right (by omega)
  simp [release, hcc, hmax, record_failure, hcs, hth]

lemma release_true_halfopen_step (cfg : RateLimitConfig) (t : Int)
    (s : RLState) (hcs : s.circuit_state = .HALF_OPEN)
    (hcc : 0 < s.concurrent_count)
    (hth : s.success_count + 1 < cfg.success_threshold) :
    release cfg t true s =
      { s with
        concurrent_count := s.concurrent_count - 1
        success_count := s.success_count + 1 } := by
  have hmax : max 0 (s.concurrent_count - 1) = s.concurrent_count - 1 :=
    max_eq_right (by omega)
  have hnle : ¬ cfg.success_threshold ≤ s.success_count + 1 := by omega
  simp [release, hcc, hmax, record_success, hcs, hnle]

lemma release_true_halfopen_close (cfg : RateLimitConfig) (t : Int)
    (s : RLState) (hcs : s.circuit_state = .HALF_OPEN)
    (hcc : 0 < s.concurrent_count)
    (hth : cfg.success_threshold ≤ s.success_count + 1) :
    release cfg t true s =
      { s with
        concurrent_count := s.concurrent_count - 1
        circuit_state := .CLOSED
        failure_count := 0
        success_count := 0 } := by
  have hmax : max 0 (s.concurrent_count - 1) = s.concurrent_count - 1 :=
    max_eq_right (by omega)
  simp [release, hcc, hmax, record_success, hcs, hth]

lemma release_false_halfopen (cfg : RateLimitConfig) (t : Int) (s : RLState)
    (hcs : s.circuit_state = .HALF_OPEN) (hcc : 0 < s.concurrent_count) :
    release cfg t false s =
      { s with
        concurrent_count := s.concurrent_count - 1
        total_failures := s.total_failures + 1
        circuit_state := .OPEN
        circuit_opened_at := some t
        total_circuit_opens := s.total_circuit_opens + 1 } := by
  have hmax : max 0 (s.concurrent_count - 1) = s.concurrent_count - 1 :=
    max_eq_right (by omega)
  simp [release, hcc, hmax, record_failure, hcs]

lemma releaseList_false_closed (cfg : RateLimitConfig) :
    ∀ (ts : List Int) (s : RLState),
    s.circuit_state = .CLOSED →
    (ts.length : Int) ≤ s.concurrent_count →
    s.failure_count + ts.length < cfg.failure_threshold →
    releaseList cfg false ts s =
      { s with
        concurrent_count := s.concurrent_count - ts.length
        failure_count := s.failure_count + ts.length
        total_failures := s.total_failures + ts.length } := by
  intro ts
  induction ts with
  | nil =>
    intro s h1 h2 h3
    simp [releaseList_nil]
  | cons t rest ih =>
    intro s h1 h2 h3
    rw [releaseList_cons]
    have hlen : (rest.length : Int) + 1 ≤ s.concurrent_count := by
      rw [List.length_cons] at h2
      push_cast at h2
      omega
    have hcc : 0 < s.concurrent_count := by omega
    have hth : s.failure_count + 1 < cfg.failure_threshold := by
      rw [List.length_cons] at h3
      omega
    rw [release_false_closed_no_trip cfg t s h1 hcc hth]
    rw [ih { s with
        concurrent_count := s.concurrent_count - 1
        total_failures := s.total_failures + 1
        failure_count := s.failure_count + 1 }
      h1
      (show (rest.length : Int) ≤ s.concurrent_count - 1 by omega)
      (show s.failure_count + 1 + rest.length < cfg.failure_threshold by
        rw [List.length_cons] at h3; omega)]
    simp only [RLState.mk.injEq, List.length_cons, true_and, and_true]
    push_cast
    omega

lemma releaseList_true_halfopen (cfg : RateLimitConfig) :
    ∀ (ts : List Int) (s : RLState),
    s.circuit_state = .HALF_OPEN →
    (ts.length : Int) ≤ s.concurrent_count →
    s.success_count + ts.length < cfg.success_threshold →
    releaseList cfg true ts s =
      { s with
        concurrent_count := s.concurrent_count - ts.length
        success_count := s.success_count + ts.length } := by
  intro ts
  induction ts with
  | nil =>
    intro s h1 h2 h3
    simp [releaseList_nil]
  | cons t rest ih =>
    intro s h1 h2 h3
    rw [releaseList_cons]
    have hlen : (rest.length : Int) + 1 ≤ s.concurrent_count := by
      rw [List.length_cons] at h2
      push_cast at h2
      omega
    have hcc : 0 < s.concurrent_count := by omega
    have hth : s.success_count + 1 < cfg.success_threshold := by
      rw [List.length_cons] at h3
      omega
    rw [release_true_halfopen_step cfg t s h1 hcc hth]
    rw [ih { s with
        concurrent_count := s.concurrent_count - 1
        success_count := s.success_count + 1 }
      h1
      (show (rest.length : Int) ≤ s.concurrent_count - 1 by omega)
      (show s.success_count + 1 + rest.length < cfg.success_threshold by
        rw [List.length_cons] at h3; omega)]
    simp only [RLState.mk.injEq, List.length_cons, true_and, and_true]
    push_cast
    omega

lemma acquire_keeps_circuit_fields (cfg : RateLimitConfig) (now : Int)
    (s : RLState) (h : (check_circuit cfg now s).1 = true) :
    (acquire cfg now s).2.circuit_state =
      (check_circuit cfg now s).2.circuit_state
    ∧ (acquire cfg now s).2.success_count =
        (check_circuit cfg now s).2.success_count := by
  rw [acquire_circuit_true cfg now s h]
  split_ifs <;> exact ⟨rfl, rfl⟩

/-- C1: the circuit breaker follows the §4.1 transition table: from CLOSED
with a zeroed failure streak, exactly `failure_threshold` consecutive
`release(false)` calls (each with a slot held) open the circuit with the
last release's timestamp and bump the open-count, while one fewer leaves it
CLOSED; while OPEN and within `timeout_seconds` every `acquire` returns
false and changes nothing; once the open duration reaches `timeout_seconds`
the next `acquire` moves to HALF_OPEN with the success counter reset;
`success_threshold` consecutive `release(true)` calls from HALF_OPEN close
the circuit and reset the failure counter, with fewer leaving it HALF_OPEN;
and a single `release(false)` in HALF_OPEN reopens the circuit with a fresh
timestamp and an incremented open-count. -/
theorem circuit_breaker_transition_table (cfg : RateLimitConfig) :
    (∀ (ts : List Int) (t : Int) (s : RLState),
      s.circuit_state = .CLOSED → s.failure_count = 0 →
      ts.length + 1 = cfg.failure_threshold →
      (cfg.failure_threshold : Int) ≤ s.concurrent_count →
      (releaseList cfg false ts s).circuit_state = .CLOSED
      ∧ (releaseList cfg false (ts ++ [t]) s).circuit_state = .OPEN
      ∧ (releaseList cfg false (ts ++ [t]) s).circuit_opened_at = some t
      ∧ (releaseList cfg false (ts ++ [t]) s).total_circuit_opens =
          s.total_circuit_opens + 1)
    ∧ (∀ (now t0 : Int) (s : RLState),
        s.circuit_state = .OPEN → s.circuit_opened_at = some t0 →
        now - t0 < cfg.timeout_seconds →
        acquire cfg now s = (false, s))
    ∧ (∀ (now t0 : Int) (s : RLState),
        s.circuit_state = .OPEN → s.circuit_opened_at = some t0 →
        cfg.timeout_seconds ≤ now - t0 →
        (acquire cfg now s).2.circuit_state = .HALF_OPEN
        ∧ (acquire cfg now s).2.success_count = 0)
    ∧ (∀ (ts : List Int) (t : Int) (s : RLState),
        s.circuit_state = .HALF_OPEN → s.success_count = 0 →
        ts.length + 1 = cfg.success_threshold →
        (cfg.success_threshold : Int) ≤ s.concurrent_count →
        (releaseList cfg true ts s).circuit_state = .HALF_OPEN
        ∧ (releaseList cfg true ts s).success_count = ts.length
        ∧ (releaseList cfg true (ts ++ [t]) s).circuit_state = .CLOSED
        ∧ (releaseList cfg true (ts ++ [t]) s).failure_count = 0)
    ∧ (∀ (t : Int) (s : RLState),
        s.circuit_state = .HALF_OPEN → 0 < s.concurrent_count →
        (release cfg t false s).circuit_state = .OPEN
        ∧ (release cfg t false s).circuit_opened_at = some t
        ∧ (release cfg t false s).total_circuit_opens =
            s.total_circuit_opens + 1) := by
  refine ⟨?_, ?_, ?_, ?_, ?_⟩
  · intro ts t s h1 h2 hlen hcc
    have hlist := releaseList_false_closed cfg ts s h1
      (by omega) (by omega)
    have hmid : (releaseList cfg false ts s).circuit_state = .CLOSED := by
      rw [hlist]
      exact h1
    refine ⟨hmid, ?_, ?_, ?_⟩ <;>
      · rw [releaseList_append, releaseList_cons, releaseList_nil,
          release_false_closed_trip cfg t _ hmid
            (by rw [hlist]; show 0 < s.concurrent_count - ts.length; omega)
            (by rw [hlist]; show cfg.failure_threshold ≤ s.failure_count + ts.length + 1; omega),
          hlist]
  · intro now t0 s h1 h2 h3
    exact acquire_circuit_false cfg now s
      (by rw [check_circuit_open_blocked cfg now s t0 h1 h2 h3])
  · intro now t0 s h1 h2 h3
    have hck := check_circuit_open_elapsed cfg now s t0 h1 h2 h3
    have h4 : (check_circuit cfg now s).1 = true := by rw [hck]
    have h5 := acquire_keeps_circuit_fields cfg now s h4
    rw [hck] at h5
    exact h5
  · intro ts t s h1 h2 hlen hcc
    have hlist := releaseList_true_halfopen cfg ts s h1
      (by omega) (by omega)
    have hmid : (releaseList cfg true ts s).circuit_state = .HALF_OPEN := by
      rw [hlist]
      exact h1
    have hsc : (releaseList cfg true ts s).success_count = ts.length := by
      rw [hlist]
      show s.success_count + ts.length = ts.length
      omega
    refine ⟨hmid, hsc, ?_, ?_⟩ <;>
      · rw [releaseList_append, releaseList_cons, releaseList_nil,
          release_true_halfopen_close cfg t _ hmid
            (by rw [hlist]; show 0 < s.concurrent_count - ts.length; omega)
            (by rw [hsc]; omega)]
  · intro t s h1 h2
    rw [release_false_halfopen cfg t s h1 h2]
    exact ⟨rfl, rfl, rfl⟩

/-- C1 witness: with thresholds 2, a fresh CLOSED limiter holding two slots
trips after the second failure at time 2; an OPEN circuit blocks at time 10
and half-opens at time 100; two successes close it again; one HALF_OPEN
failure reopens it. -/
theorem circuit_breaker_transition_table_witness :
    (releaseList { failure_threshold := 2 } false [1]
        { RLState.init with concurrent_count := 2 }).circuit_state = .CLOSED
    ∧ (releaseList { failure_threshold := 2 } false [1, 2]
        { RLState.init with concurrent_count := 2 }).circuit_state = .OPEN
    ∧ (releaseList { failure_threshold := 2 } false [1, 2]
        { RLState.init with concurrent_count := 2 }).circuit_opened_at = some 2
    ∧ acquire { failure_threshold := 2 } 10
        { RLState.init with
          circuit_state := .OPEN
          circuit_opened_at := some 0 } =
      (false, { RLState.init with
        circuit_state := .OPEN
        circuit_opened_at := some 0 })
    ∧ (acquire { failure_threshold := 2 } 100
        { RLState.init with
          circuit_state := .OPEN
          circuit_opened_at := some 0 }).2.circuit_state = .HALF_OPEN
    ∧ (releaseList { failure_threshold := 2 } true [1, 2]
        { RLState.init with
          circuit_state := .HALF_OPEN
          concurrent_count := 2 }).circuit_state = .CLOSED
    ∧ (release { failure_threshold := 2 } 3 false
        { RLState.init with
          circuit_state := .HALF_OPEN
          concurrent_count := 1 }).circuit_state = .OPEN := by
  have hA := (circuit_breaker_transition_table { failure_threshold := 2 }).1
    [1] 2 { RLState.init with concurrent_count := 2 } rfl rfl (by decide)
    (by decide)
  have hB := (circuit_breaker_transition_table { failure_threshold := 2 }).2.1
    10 0 { RLState.init with
      circuit_state := .OPEN
      circuit_opened_at := some 0 } rfl rfl (by decide)
  have hC := (circuit_breaker_transition_table { failure_threshold := 2 }).2.2.1
    100 0 { RLState.init with
      circuit_state := .OPEN
      circuit_opened_at := some 0 } rfl rfl (by decide)
  have hD := (circuit_breaker_transition_table { failure_threshold := 2 }).2.2.2.1
    [1] 2 { RLState.init with
      circuit_state := .HALF_OPEN
      concurrent_count := 2 } rfl rfl (by decide) (by decide)
  have hE := (circuit_breaker_transition_table { failure_threshold := 2 }).2.2.2.2
    3 { RLState.init with
      circuit_state := .HALF_OPEN
      concurrent_count := 1 } rfl (by decide)
  exact ⟨hA.1, hA.2.1, hA.2.2.1, hB, hC.1, hD.2.2.1, hE.1⟩

lemma geom_append (w b : ℚ) (m : Nat) (sl : List ℚ) :
    (sl ++ [w]) ++ (List.range m).map (fun i => (w * b) * b ^ i) =
      sl ++ (List.range (m + 1)).map (fun i => w * b ^ i) := by
  rw [List.append_assoc]
  congr 1
  rw [List.range_succ_eq_map, List.map_cons, List.map_map]
  simp only [pow_zero, mul_one, List.singleton_append]
  congr 1
  apply List.map_congr_left
  intro i _
  simp only [Function.comp_apply, pow_succ]
  ring

lemma retryLoop_zero (cfg : RateLimitConfig) (times : Nat → Int)
    (op : Nat → Except E A) (b : ℚ) (attempt : Nat) (w : ℚ)
    (lastE : Option E) (s : RLState) (k : Nat) (sl : List ℚ) :
    retryLoop cfg times op b 0 attempt w lastE s k sl =
      ⟨Except.error lastE, s, k, sl⟩ := rfl

lemma retryLoop_succ (cfg : RateLimitConfig) (times : Nat → Int)
    (op : Nat → Except E A) (b : ℚ) (r attempt : Nat) (w : ℚ)
    (lastE : Option E) (s : RLState) (k : Nat) (sl : List ℚ) :
    retryLoop cfg times op b (r + 1) attempt w lastE s k sl =
      (if (acquire cfg (times attempt) s).1 = false then
        retryLoop cfg times op b r (attempt + 1) (w * b) lastE
          (acquire cfg (times attempt) s).2 k (sl ++ [w])
      else
        match op attempt with
        | .ok a =>
          ⟨.ok a,
            release cfg (times attempt) true (acquire cfg (times attempt) s).2,
            k + 1, sl⟩
        | .error e =>
          match r with
          | 0 =>
            ⟨.error (some e),
              release cfg (times attempt) false
                (acquire cfg (times attempt) s).2,
              k + 1, sl⟩
          | _ + 1 =>
            retryLoop cfg times op b r (attempt + 1) (w * b) (some e)
              (release cfg (times attempt) false
                (acquire cfg (times attempt) s).2)
              (k + 1) (sl ++ [w])) := rfl

lemma retryLoop_opCalls_le (cfg : RateLimitConfig) (times : Nat → Int)
    (op : Nat → Except E A) (b : ℚ) :
    ∀ (r attempt : Nat) (w : ℚ) (lastE : Option E) (s : RLState) (k : Nat)
      (sl : List ℚ),
    (retryLoop cfg times op b r attempt w lastE s k sl).opCalls ≤ k + r := by
  intro r
  induction r with
  | zero =>
    intro attempt w lastE s k sl
    rw [retryLoop_zero]
    show k ≤ k + 0
    omega
  | succ r ih =>
    intro attempt w lastE s k sl
    rw [retryLoop_succ]
    by_cases hp : (acquire cfg (times attempt) s).1 = false
    · rw [if_pos hp]
      exact le_trans (ih (attempt + 1) (w * b) lastE _ k (sl ++ [w])) (by omega)
    · rw [if_neg hp]
      cases hop : op attempt with
      | ok a =>
        show k + 1 ≤ k + (r + 1)
        omega
      | error e =>
        cases r with
        | zero =>
          show k + 1 ≤ k + 1
          omega
        | succ r' =>
          exact le_trans
            (ih (attempt + 1) (w * b) (some e) _ (k + 1) (sl ++ [w]))
            (by omega)

lemma retryLoop_success (cfg : RateLimitConfig) (times : Nat → Int)
    (op : Nat → Except E A) (b : ℚ) (r attempt : Nat) (w : ℚ)
    (lastE : Option E) (s s' : RLState) (k : Nat) (sl : List ℚ) (a : A)
    (hacq : acquire cfg (times attempt) s = (true, s'))
    (hop : op attempt = Except.ok a) :
    retryLoop cfg times op b (r + 1) attempt w lastE s k sl =
      ⟨Except.ok a, release cfg (times attempt) true s', k + 1, sl⟩ := by
  rw [retryLoop_succ, hacq, if_neg (by simp), hop]

lemma retryLoop_error_step (cfg : RateLimitConfig) (times : Nat → Int)
    (op : Nat → Except E A) (b : ℚ) (r attempt : Nat) (w : ℚ)
    (lastE : Option E) (s s' : RLState) (k : Nat) (sl : List ℚ) (e : E)
    (hacq : acquire cfg (times attempt) s = (true, s'))
    (hop : op attempt = Except.error e) :
    retryLoop cfg times op b (r + 1 + 1) attempt w lastE s k sl =
      retryLoop cfg times op b (r + 1) (attempt + 1) (w * b) (some e)
        (release cfg (times attempt) false s')
        (k + 1) (sl ++ [w]) := by
  rw [retryLoop_succ, hacq, if_neg (by simp), hop]

lemma retryLoop_error_last (cfg : RateLimitConfig) (times : Nat → Int)
    (op : Nat → Except E A) (b : ℚ) (attempt : Nat) (w : ℚ)
    (lastE : Option E) (s s' : RLState) (k : Nat) (sl : List ℚ) (e : E)
    (hacq : acquire cfg (times attempt) s = (true, s'))
    (hop : op attempt = Except.error e) :
    retryLoop cfg times op b 1 attempt w lastE s k sl =
      ⟨Except.error (some e), release cfg (times attempt) false s',
        k + 1, sl⟩ := by
  rw [retryLoop_succ, hacq, if_neg (by simp), hop]

lemma retryLoop_blocked (cfg : RateLimitConfig) (op : Nat → Except E A)
    (b : ℚ) (t0 : Int) (s : RLState)
    (hacq : acquire cfg t0 s = (false, s)) :
    ∀ (r attempt : Nat) (w : ℚ) (lastE : Option E) (k : Nat) (sl : List ℚ),
    retryLoop cfg (fun _ => t0) op b r attempt w lastE s k sl =
      ⟨Except.error lastE, s, k,
        sl ++ (List.range r).map (fun i => w * b ^ i)⟩ := by
  intro r
  induction r with
  | zero =>
    intro attempt w lastE k sl
    rw [retryLoop_zero]
    simp
  | succ r ih =>
    intro attempt w lastE k sl
    rw [retryLoop_succ, hacq, if_pos rfl,
      ih (attempt + 1) (w * b) lastE k (sl ++ [w])]
    rw [RetryResult.mk.injEq]
    exact ⟨rfl, rfl, rfl, geom_append w b r sl⟩

lemma retryLoop_sleeps_shape (cfg : RateLimitConfig) (times : Nat → Int)
    (op : Nat → Except E A) (b : ℚ) :
    ∀ (r attempt : Nat) (w : ℚ) (lastE : Option E) (s : RLState) (k : Nat)
      (sl : List ℚ),
    ∃ m, m ≤ r ∧
      (retryLoop cfg times op b r attempt w lastE s k sl).sleeps =
        sl ++ (List.range m).map (fun i => w * b ^ i) := by
  intro r
  induction r with
  | zero =>
    intro attempt w lastE s k sl
    exact ⟨0, le_refl 0, by rw [retryLoop_zero]; simp⟩
  | succ r ih =>
    intro attempt w lastE s k sl
    rw [retryLoop_succ]
    by_cases hp : (acquire cfg (times attempt) s).1 = false
    · rw [if_pos hp]
      obtain ⟨m, hm, heq⟩ := ih (attempt + 1) (w * b) lastE _ k (sl ++ [w])
      exact ⟨m + 1, by omega, by rw [heq, geom_append w b m sl]⟩
    · rw [if_neg hp]
      cases hop : op attempt with
      | ok a =>
        exact ⟨0, by omega, by simp⟩
      | error e =>
        cases r with
        | zero => exact ⟨0, by omega, by simp⟩
        | succ r' =>
          obtain ⟨m, hm, heq⟩ := ih (attempt + 1) (w * b) (some e) _ (k + 1)
            (sl ++ [w])
          exact ⟨m + 1, by omega, by rw [heq, geom_append w b m sl]⟩

lemma acquire_grants (cfg : RateLimitConfig) (now : Int) (s : RLState)
    (hcs : s.circuit_state = .CLOSED)
    (hm : s.minute_requests.dropWhile (fun u => decide (u < now - 60)) =
      s.minute_requests)
    (hh : s.hour_requests.dropWhile (fun u => decide (u < now - 3600)) =
      s.hour_requests)
    (h1 : s.concurrent_count < (cfg.max_concurrent_requests : Int))
    (h2 : s.minute_requests.length < cfg.max_requests_per_minute)
    (h3 : s.hour_requests.length < cfg.max_requests_per_hour) :
    acquire cfg now s =
      (true, { s with
        minute_requests := s.minute_requests ++ [now]
        hour_requests := s.hour_requests ++ [now]
        concurrent_count := s.concurrent_count + 1
        total_requests := s.total_requests + 1 }) := by
  have hcheck : check_circuit cfg now s = (true, s) :=
    check_circuit_closed cfg now s hcs
  have hpc : postCircuit cfg now s = s := by
    unfold postCircuit
    rw [hcheck]
    show cleanup_old_requests now s = s
    unfold cleanup_old_requests
    rw [hm, hh]
  rw [acquire_circuit_true cfg now s (by rw [hcheck]), hpc,
    if_neg (by omega), if_neg (by omega), if_neg (by omega)]

/-- C4: `execute_with_retry` invokes the wrapped operation at most
`max_retries + 1` times; with an always-raising operation, a fresh limiter
and `max_retries = 2` it makes exactly 3 attempts and raises the last
captured error; an attempt whose operation succeeds releases the slot with
`success=true` and returns that result at once; when every iteration is
rate-limited it raises the generic no-error-captured error after sleeping
the geometric backoff sequence; and in every run the backoff sleeps are
`1.0 * backoff_factor ^ i` in order. -/
theorem execute_with_retry_spec :
    (∀ (E A : Type) (cfg : RateLimitConfig) (times : Nat → Int)
        (op : Nat → Except E A) (mr : Nat) (b : ℚ) (s : RLState),
      (execute_with_retry cfg times op mr b s).opCalls ≤ mr + 1)
    ∧ (∀ (E A : Type) (cfg : RateLimitConfig) (t : Int)
        (op : Nat → Except E A) (e : Nat → E) (b : ℚ),
        (∀ k, op k = Except.error (e k)) →
        1 ≤ cfg.max_concurrent_requests →
        3 ≤ cfg.max_requests_per_minute →
        3 ≤ cfg.max_requests_per_hour →
        3 ≤ cfg.failure_threshold →
        (execute_with_retry cfg (fun _ => t) op 2 b RLState.init).opCalls = 3
        ∧ (execute_with_retry cfg (fun _ => t) op 2 b RLState.init).result =
            Except.error (some (e 2)))
    ∧ (∀ (E A : Type) (cfg : RateLimitConfig) (times : Nat → Int)
        (op : Nat → Except E A) (b : ℚ) (r attempt : Nat) (w : ℚ)
        (lastE : Option E) (s s' : RLState) (k : Nat) (sl : List ℚ) (a : A),
        acquire cfg (times attempt) s = (true, s') →
        op attempt = Except.ok a →
        retryLoop cfg times op b (r + 1) attempt w lastE s k sl =
          ⟨Except.ok a, release cfg (times attempt) true s', k + 1, sl⟩)
    ∧ (∀ (E A : Type) (cfg : RateLimitConfig) (op : Nat → Except E A) (b : ℚ)
        (mr : Nat) (t0 : Int) (s : RLState),
        acquire cfg t0 s = (false, s) →
        execute_with_retry cfg (fun _ => t0) op mr b s =
          ⟨Except.error none, s, 0,
            (List.range (mr + 1)).map (fun i => b ^ i)⟩)
    ∧ (∀ (E A : Type) (cfg : RateLimitConfig) (times : Nat → Int)
        (op : Nat → Except E A) (b : ℚ) (mr : Nat) (s : RLState),
        ∃ k, k ≤ mr + 1 ∧
          (execute_with_retry cfg times op mr b s).sleeps =
            (List.range k).map (fun i => b ^ i)) := by
  refine ⟨?_, ?_, ?_, ?_, ?_⟩
  · intro E A cfg times op mr b s
    show (retryLoop cfg times op b (mr + 1) 0 1 none s 0 []).opCalls ≤ mr + 1
    have h := retryLoop_opCalls_le cfg times op b (mr + 1) 0 1 none s 0 []
    omega
  · intro E A cfg t op e b hop hmc hmm hmh hft
    have hne60 : ¬ (t < t - 60) := by omega
    have hne3600 : ¬ (t < t - 3600) := by omega
    have hA0 : acquire cfg t RLState.init =
        (true, (⟨[t], [t], 1, .CLOSED, 0, 0, none, 1, 0, 0, 0⟩ : RLState)) :=
      acquire_grants cfg t RLState.init rfl rfl rfl
        (by show (0 : Int) < (cfg.max_concurrent_requests : Int); omega)
        (by show 0 < cfg.max_requests_per_minute; omega)
        (by show 0 < cfg.max_requests_per_hour; omega)
    have hB0 : release cfg t false
        (⟨[t], [t], 1, .CLOSED, 0, 0, none, 1, 0, 0, 0⟩ : RLState) =
        (⟨[t], [t], 0, .CLOSED, 1, 0, none, 1, 1, 0, 0⟩ : RLState) :=
      release_false_closed_no_trip cfg t _ rfl
        (by show (0 : Int) < 1; norm_num)
        (by show 0 + 1 < cfg.failure_threshold; omega)
    have hA1 : acquire cfg t
        (⟨[t], [t], 0, .CLOSED, 1, 0, none, 1, 1, 0, 0⟩ : RLState) =
        (true, (⟨[t, t], [t, t], 1, .CLOSED, 1, 0, none, 2, 1, 0, 0⟩ : RLState)) :=
      acquire_grants cfg t _ rfl
        (by simp [List.dropWhile_cons, hne60])
        (by simp [List.dropWhile_cons, hne3600])
        (by show (0 : Int) < (cfg.max_concurrent_requests : Int); omega)
        (by show 1 < cfg.max_requests_per_minute; omega)
        (by show 1 < cfg.max_requests_per_hour; omega)
    have hB1 : release cfg t false
        (⟨[t, t], [t, t], 1, .CLOSED, 1, 0, none, 2, 1, 0, 0⟩ : RLState) =
        (⟨[t, t], [t, t], 0, .CLOSED, 2, 0, none, 2, 2, 0, 0⟩ : RLState) :=
      release_false_closed_no_trip cfg t _ rfl
        (by show (0 : Int) < 1; norm_num)
        (by show 1 + 1 < cfg.failure_threshold; omega)
    have hA2 : acquire cfg t
        (⟨[t, t], [t, t], 0, .CLOSED, 2, 0, none, 2, 2, 0, 0⟩ : RLState) =
        (true,
          (⟨[t, t, t], [t, t, t], 1, .CLOSED, 2, 0, none, 3, 2, 0, 0⟩ : RLState)) :=
      acquire_grants cfg t _ rfl
        (by simp [List.dropWhile_cons, hne60])
        (by simp [List.dropWhile_cons, hne3600])
        (by show (0 : Int) < (cfg.max_concurrent_requests : Int); omega)
        (by show 2 < cfg.max_requests_per_minute; omega)
        (by show 2 < cfg.max_requests_per_hour; omega)
    have hfull : execute_with_retry cfg (fun _ => t) op 2 b RLState.init =
        ⟨Except.error (some (e 2)),
          release cfg t false
            (⟨[t, t, t], [t, t, t], 1, .CLOSED, 2, 0, none, 3, 2, 0, 0⟩ : RLState),
          3, [1, 1 * b]⟩ := by
      show retryLoop cfg (fun _ => t) op b (1 + 1 + 1) 0 1 none RLState.init
        0 [] = _
      rw [retryLoop_error_step cfg (fun _ => t) op b 1 0 1 none RLState.init _
        0 [] (e 0) hA0 (hop 0)]
      show retryLoop cfg (fun _ => t) op b (0 + 1 + 1) 1 (1 * b) (some (e 0))
        (release cfg t false
          (⟨[t], [t], 1, .CLOSED, 0, 0, none, 1, 0, 0, 0⟩ : RLState)) 1 [1] = _
      rw [hB0]
      rw [retryLoop_error_step cfg (fun _ => t) op b 0 1 (1 * b) (some (e 0))
        _ _ 1 [1] (e 1) hA1 (hop 1)]
      show retryLoop cfg (fun _ => t) op b 1 2 (1 * b * b) (some (e 1))
        (release cfg t false
          (⟨[t, t], [t, t], 1, .CLOSED, 1, 0, none, 2, 1, 0, 0⟩ : RLState))
        2 [1, 1 * b] = _
      rw [hB1]
      rw [retryLoop_error_last cfg (fun _ => t) op b 2 (1 * b * b) (some (e 1))
        _ _ 2 [1, 1 * b] (e 2) hA2 (hop 2)]
    rw [hfull]
    exact ⟨rfl, rfl⟩
  · intro E A cfg times op b r attempt w lastE s s' k sl a hacq hop
    exact retryLoop_success cfg times op b r attempt w lastE s s' k sl a hacq hop
  · intro E A cfg op b mr t0 s hacq
    have h := retryLoop_blocked cfg op b t0 s hacq (mr + 1) 0 1 none 0 []
    show retryLoop cfg (fun _ => t0) op b (mr + 1) 0 1 none s 0 [] = _
    rw [h, RetryResult.mk.injEq]
    refine ⟨rfl, rfl, rfl, ?_⟩
    rw [List.nil_append]
    apply List.map_congr_left
    intro i _
    rw [one_mul]
  · intro E A cfg times op b mr s
    obtain ⟨m, hm, heq⟩ :=
      retryLoop_sleeps_shape cfg times op b (mr + 1) 0 1 none s 0 []
    refine ⟨m, hm, ?_⟩
    show (retryLoop cfg times op b (mr + 1) 0 1 none s 0 []).sleeps = _
    rw [heq, List.nil_append]
    apply List.map_congr_left
    intro i _
    rw [one_mul]

/-- C4 witness: a concrete always-failing operation under the default
configuration makes exactly 3 attempts with `max_retries = 2`, and a limiter
whose circuit is freshly OPEN is rate-limited on every iteration, raising
the generic error with no operation call and sleeping 1, 1.5 and 2.25
seconds. -/
theorem execute_with_retry_spec_witness :
    (execute_with_retry { } (fun _ => 0)
        (fun k => (Except.error (toString k) : Except String Nat)) 2 (3 / 2)
        RLState.init).opCalls = 3
    ∧ (execute_with_retry { } (fun _ => 0)
        (fun k => (Except.error (toString k) : Except String Nat)) 2 (3 / 2)
        RLState.init).result = Except.error (some "2")
    ∧ execute_with_retry { } (fun _ => 0)
        (fun _ => (Except.error "x" : Except String Nat)) 2 (3 / 2)
        { RLState.init with
          circuit_state := .OPEN
          circuit_opened_at := some 0 } =
      ⟨Except.error none,
        { RLState.init with
          circuit_state := .OPEN
          circuit_opened_at := some 0 },
        0, [1, 3 / 2, 9 / 4]⟩ := by
  have h2 := execute_with_retry_spec.2.1 String Nat { } 0
    (fun k => (Except.error (toString k) : Except String Nat))
    (fun k => toString k) (3 / 2) (fun _ => rfl)
    (by decide) (by decide) (by decide) (by decide)
  have h4 := execute_with_retry_spec.2.2.2.1 String Nat { }
    (fun _ => (Except.error "x" : Except String Nat)) (3 / 2) 2 0
    { RLState.init with
      circuit_state := .OPEN
      circuit_opened_at := some 0 } (by decide)
  refine ⟨h2.1, h2.2, ?_⟩
  rw [h4]
  rw [RetryResult.mk.injEq]
  exact ⟨rfl, rfl, rfl, by norm_num [List.range_succ]⟩

/-- C3 counterexample: a circuit-breaker rejection does not increment the
"total rate limited" counter (first conjunct pair), and a capacity rejection
does purge expired entries from the windows, so a rejected `acquire` can
change the minute window (second conjunct group). -/
theorem rejection_counter_cex :
    (acquire { } 1
        { RLState.init with
          circuit_state := .OPEN
          circuit_opened_at := some 0 }).1 = false
    ∧ (acquire { } 1
        { RLState.init with
          circuit_state := .OPEN
          circuit_opened_at := some 0 }).2.total_rate_limited = 0
    ∧ (acquire { } 0
        { RLState.init with
          minute_requests := [-100]
          hour_requests := [-100]
          concurrent_count := 5 }).1 = false
    ∧ (acquire { } 0
        { RLState.init with
          minute_requests := [-100]
          hour_requests := [-100]
          concurrent_count := 5 }).2.minute_requests = []
    := by decide

/-- C3 (amended): a circuit-breaker rejection returns false with the state
completely unchanged (the counter is not incremented); a capacity rejection
(checks 3–5) increments "total rate limited" by exactly one and leaves the
windows purged of expired entries but with nothing appended, the in-flight
count, total-request counter unchanged; no rejection of either kind changes
the circuit breaker's failure count. -/
theorem rejection_side_effects (cfg : RateLimitConfig) :
    (∀ (now : Int) (s : RLState),
      (check_circuit cfg now s).1 = false → acquire cfg now s = (false, s))
    ∧ (∀ (now : Int) (s : RLState),
        (check_circuit cfg now s).1 = true → (acquire cfg now s).1 = false →
        (acquire cfg now s).2.total_rate_limited = s.total_rate_limited + 1
        ∧ (acquire cfg now s).2.minute_requests =
            s.minute_requests.dropWhile (fun t => decide (t < now - 60))
        ∧ (acquire cfg now s).2.hour_requests =
            s.hour_requests.dropWhile (fun t => decide (t < now - 3600))
        ∧ (acquire cfg now s).2.concurrent_count = s.concurrent_count
        ∧ (acquire cfg now s).2.total_requests = s.total_requests)
    ∧ (∀ (now : Int) (s : RLState), (acquire cfg now s).1 = false →
        (acquire cfg now s).2.failure_count = s.failure_count) := by
  have reject2 : ∀ (now : Int) (s : RLState),
      (check_circuit cfg now s).1 = true → (acquire cfg now s).1 = false →
      (acquire cfg now s).2 =
        { postCircuit cfg now s with
          total_rate_limited := (postCircuit cfg now s).total_rate_limited + 1 } := by
    intro now s hcirc hfalse
    rw [acquire_circuit_true cfg now s hcirc] at hfalse ⊢
    by_cases h1 : (cfg.max_concurrent_requests : Int) ≤
        (postCircuit cfg now s).concurrent_count
    · rw [if_pos h1]
    · rw [if_neg h1] at hfalse ⊢
      by_cases h2 : cfg.max_requests_per_minute ≤
          (postCircuit cfg now s).minute_requests.length
      · rw [if_pos h2]
      · rw [if_neg h2] at hfalse ⊢
        by_cases h3 : cfg.max_requests_per_hour ≤
            (postCircuit cfg now s).hour_requests.length
        · rw [if_pos h3]
        · rw [if_neg h3] at hfalse
          exact absurd hfalse (by simp)
  refine ⟨fun now s h => acquire_circuit_false cfg now s h, ?_, ?_⟩
  · intro now s hcirc hfalse
    rw [reject2 now s hcirc hfalse]
    refine ⟨?_, ?_, ?_, ?_, ?_⟩
    · show (postCircuit cfg now s).total_rate_limited + 1 = _
      rw [postCircuit_total_rate_limited cfg now s]
    · show (postCircuit cfg now s).minute_requests = _
      rw [postCircuit_minute cfg now s]
    · show (postCircuit cfg now s).hour_requests = _
      rw [postCircuit_hour cfg now s]
    · show (postCircuit cfg now s).concurrent_count = _
      rw [postCircuit_concurrent cfg now s]
    · show (postCircuit cfg now s).total_requests = _
      rw [postCircuit_total_requests cfg now s]
  · intro now s hfalse
    by_cases hcirc : (check_circuit cfg now s).1 = false
    · rw [acquire_circuit_false cfg now s hcirc]
    · rw [reject2 now s (by simpa using hcirc) hfalse]
      show (postCircuit cfg now s).failure_count = _
      rw [postCircuit_failure_count cfg now s]

/-- C3 witness: a concrete capacity rejection (in-flight count at the
ceiling) increments the counter by one and purges the minute window. -/
theorem rejection_side_effects_witness :
    (acquire { } 0
        { RLState.init with
          minute_requests := [-100]
          hour_requests := [-100]
          concurrent_count := 5 }).2.total_rate_limited = 1
    ∧ (acquire { } 0
        { RLState.init with
          minute_requests := [-100]
          hour_requests := [-100]
          concurrent_count := 5 }).2.concurrent_count = 5 := by
  have h := (rejection_side_effects { }).2.1 0
    { RLState.init with
      minute_requests := [-100]
      hour_requests := [-100]
      concurrent_count := 5 } (by decide) (by decide)
  exact ⟨h.1, h.2.2.2.1⟩

/-! ### Theorems: fallback analysis (C6, C7, C10) -/

/-- C6: `_fallback_analysis` is a deterministic pure function of the
findings' severities; its risk score is `min 100` of the summed weights
CRITICAL=50, HIGH=25, MEDIUM=10, LOW=5, INFO=1, and the two-finding list
[CRITICAL, HIGH] scores 75. -/
theorem fallback_risk_score_correct :
    (∀ findings : List Finding,
      (fallback_analysis findings).risk_score =
        ((min 100 ((findings.map (fun f => severity_weights f.severity)).sum) : Nat) : Int))
    ∧ severity_weights "CRITICAL" = 50 ∧ severity_weights "HIGH" = 25
    ∧ severity_weights "MEDIUM" = 10 ∧ severity_weights "LOW" = 5
    ∧ severity_weights "INFO" = 1
    ∧ (∀ fs gs : List Finding, fs.map Finding.severity = gs.map Finding.severity →
        (fallback_analysis fs).risk_score = (fallback_analysis gs).risk_score)
    ∧ (fallback_analysis
        [{ check_id := "A-1", severity := "CRITICAL", description := "desc one xx",
           collector_name := "" },
         { check_id := "B-2", severity := "HIGH", description := "desc two yy",
           collector_name := "" }]).risk_score = 75 := by
  refine ⟨fun _ => rfl, rfl, rfl, rfl, rfl, rfl, ?_, by decide⟩
  intro fs gs h
  have hw : fs.map (fun f => severity_weights f.severity) =
      gs.map (fun f => severity_weights f.severity) := by
    have h2 := congrArg (List.map severity_weights) h
    simpa [List.map_map, Function.comp] using h2
  simp only [fallback_analysis, hw]

/-- C6 witness: the determinism conjunct applied to two concrete lists with
equal severity sequences. -/
theorem fallback_risk_score_correct_witness :
    (fallback_analysis
      [{ check_id := "A-1", severity := "CRITICAL", description := "desc one xx",
         collector_name := "" }]).risk_score =
    (fallback_analysis
      [{ check_id := "Z-9", severity := "CRITICAL", description := "other desc",
         collector_name := "x" }]).risk_score :=
  fallback_risk_score_correct.2.2.2.2.2.2.1
    [{ check_id := "A-1", severity := "CRITICAL", description := "desc one xx",
       collector_name := "" }]
    [{ check_id := "Z-9", severity := "CRITICAL", description := "other desc",
       collector_name := "x" }]
    (by decide)

/-- C7 counterexample: with 11 CRITICAL findings the CRITICAL+HIGH count is
11, but the executive summary reports 10 (the truncated `critical_issues`
length), not the full count. -/
theorem fallback_summary_full_count_cex :
    ((List.replicate 11
        ({ check_id := "A-1", severity := "CRITICAL", description := "desc one xx",
           collector_name := "" } : Finding)).filter isCriticalOrHigh).length = 11
    ∧ (fallback_analysis (List.replicate 11
        ({ check_id := "A-1", severity := "CRITICAL", description := "desc one xx",
           collector_name := "" } : Finding))).executive_summary =
      "Audit identified 11 findings requiring attention. 10 critical issues detected."
    ∧ (fallback_analysis (List.replicate 11
        ({ check_id := "A-1", severity := "CRITICAL", description := "desc one xx",
           collector_name := "" } : Finding))).executive_summary ≠
      "Audit identified 11 findings requiring attention. 11 critical issues detected." := by
  decide

/-- C7 (amended): the executive summary reports the total finding count and
the length of the truncated `critical_issues` list, i.e. `min 10` of the
CRITICAL+HIGH count; `critical_issues` is the first 10 CRITICAL-or-HIGH
findings formatted as `"{check_id}: {description}"`. -/
theorem fallback_summary_truncated_count :
    ∀ findings : List Finding,
      (fallback_analysis findings).critical_issues =
        ((findings.filter isCriticalOrHigh).map
          (fun f => f.check_id ++ ": " ++ f.description)).take 10
      ∧ (fallback_analysis findings).executive_summary =
        "Audit identified " ++ toString findings.length ++
          " findings requiring attention. " ++
          toString (min 10 (findings.filter isCriticalOrHigh).length) ++
          " critical issues detected." := by
  intro findings
  refine ⟨rfl, ?_⟩
  simp only [fallback_analysis, List.length_take, List.length_map]

/-- C10: a finding with an unknown severity contributes weight 0 and never
appears in `critical_issues`; a list of only unknown-severity findings gets
risk score 0 and empty `critical_issues`, while the summary still counts
them in its total. -/
theorem unknown_severity_contributes_nothing :
    (∀ sev : String, sev ≠ "CRITICAL" → sev ≠ "HIGH" → sev ≠ "MEDIUM" →
      sev ≠ "LOW" → sev ≠ "INFO" → severity_weights sev = 0)
    ∧ ∀ findings : List Finding,
        (∀ f ∈ findings, f.severity ≠ "CRITICAL" ∧ f.severity ≠ "HIGH" ∧
          f.severity ≠ "MEDIUM" ∧ f.severity ≠ "LOW" ∧ f.severity ≠ "INFO") →
        (fallback_analysis findings).risk_score = 0
        ∧ (fallback_analysis findings).critical_issues = []
        ∧ (fallback_analysis findings).executive_summary =
          "Audit identified " ++ toString findings.length ++
            " findings requiring attention. 0 critical issues detected." := by
  constructor
  · intro sev h1 h2 h3 h4 h5
    simp [severity_weights, h1, h2, h3, h4, h5]
  · intro findings h
    have hfilter : findings.filter isCriticalOrHigh = [] := by
      rw [List.filter_eq_nil_iff]
      intro f hf
      obtain ⟨h1, h2, _, _, _⟩ := h f hf
      simp [isCriticalOrHigh, h1, h2]
    have hsum : (findings.map (fun f => severity_weights f.severity)).sum = 0 := by
      apply List.sum_eq_zero
      intro x hx
      obtain ⟨f, hf, rfl⟩ := List.mem_map.mp hx
      obtain ⟨h1, h2, h3, h4, h5⟩ := h f hf
      simp [severity_weights, h1, h2, h3, h4, h5]
    refine ⟨?_, ?_, ?_⟩
    · simp only [fallback_analysis, hsum]
      rfl
    · simp only [fallback_analysis, hfilter]
      rfl
    · simp only [fallback_analysis, hfilter, List.map_nil, List.take_nil,
        List.length_nil]
      simp only [String.append_assoc]
      congr 1

/-- C10 witness: a single finding with severity "WEIRD". -/
theorem unknown_severity_contributes_nothing_witness :
    severity_weights "WEIRD" = 0
    ∧ (fallback_analysis
        [{ check_id := "X-1", severity := "WEIRD", description := "something odd",
           collector_name := "" }]).risk_score = 0
    ∧ (fallback_analysis
        [{ check_id := "X-1", severity := "WEIRD", description := "something odd",
           collector_name := "" }]).critical_issues = [] :=
  ⟨unknown_severity_contributes_nothing.1 "WEIRD" (by decide) (by decide) (by decide)
      (by decide) (by decide),
   (unknown_severity_contributes_nothing.2
      [{ check_id := "X-1", severity := "WEIRD", description := "something odd",
         collector_name := "" }] (by decide)).1,
   (unknown_severity_contributes_nothing.2
      [{ check_id := "X-1", severity := "WEIRD", description := "something odd",
         collector_name := "" }] (by decide)).2.1⟩

/-! ### Theorems: aggregation and the analysis phase (C8, C9) -/

/-- C8: aggregation flattens and stamps every collector's findings and sorts
the result by the fixed severity order, CRITICAL first, with unrecognised
severities ordered after all five known levels rather than rejected; in the
two-collector MEDIUM/CRITICAL scenario the CRITICAL finding is at index 0. -/
theorem aggregate_sorted_critical_first :
    (∀ crs : List (String × List Finding),
      (aggregate_findings crs).Perm (stampFindings crs))
    ∧ (∀ crs : List (String × List Finding),
        (aggregate_findings crs).Pairwise
          (fun a b => severity_order a.severity ≤ severity_order b.severity))
    ∧ severity_order "CRITICAL" = 0 ∧ severity_order "HIGH" = 1
    ∧ severity_order "MEDIUM" = 2 ∧ severity_order "LOW" = 3
    ∧ severity_order "INFO" = 4
    ∧ (∀ sev : String, sev ≠ "CRITICAL" → sev ≠ "HIGH" → sev ≠ "MEDIUM" →
        sev ≠ "LOW" → sev ≠ "INFO" → severity_order sev = 999)
    ∧ aggregate_findings
        [("A", [{ check_id := "M-1", severity := "MEDIUM",
                  description := "medium finding", collector_name := "" }]),
         ("B", [{ check_id := "C-1", severity := "CRITICAL",
                  description := "critical finding", collector_name := "" }])] =
      [{ check_id := "C-1", severity := "CRITICAL",
         description := "critical finding", collector_name := "B" },
       { check_id := "M-1", severity := "MEDIUM",
         description := "medium finding", collector_name := "A" }]
    ∧ aggregate_findings
        [("A", [{ check_id := "U-1", severity := "BIZARRE",
                  description := "unknown severity", collector_name := "" }]),
         ("B", [{ check_id := "I-1", severity := "INFO",
                  description := "info finding", collector_name := "" }])] =
      [{ check_id := "I-1", severity := "INFO",
         description := "info finding", collector_name := "B" },
       { check_id := "U-1", severity := "BIZARRE",
         description := "unknown severity", collector_name := "A" }] := by
  refine ⟨?_, ?_, rfl, rfl, rfl, rfl, rfl, ?_,
    by simp [aggregate_findings, stampFindings, List.mergeSort, severity_order],
    by simp [aggregate_findings, stampFindings, List.mergeSort, severity_order]⟩
  · intro crs
    exact List.mergeSort_perm _ _
  · intro crs
    have hp := @List.sorted_mergeSort Finding
      (fun a b : Finding =>
        decide (severity_order a.severity ≤ severity_order b.severity))
      (fun a b c hab hbc => by
        simp only [decide_eq_true_eq] at hab hbc ⊢
        omega)
      (fun a b => by
        simp only [Bool.or_eq_true, decide_eq_true_eq]
        omega)
      (stampFindings crs)
    exact hp.imp (fun h => by simpa using h)
  · intro sev h1 h2 h3 h4 h5
    simp [severity_order, h1, h2, h3, h4, h5]

/-- C8 witness: the unknown-severity conjunct applied to the severity
"BIZARRE". -/
theorem aggregate_sorted_critical_first_witness :
    severity_order "BIZARRE" = 999 :=
  aggregate_sorted_critical_first.2.2.2.2.2.2.2.1 "BIZARRE"
    (by decide) (by decide) (by decide) (by decide) (by decide)

/-- C9: a run whose aggregated findings list is empty never invokes the
analyzer: phase 3 synthesizes the canned healthy-system result with risk
score 0, a fixed summary, no critical issues and a nonempty recommendations
list; and collectors yielding no findings aggregate to the empty list. -/
theorem empty_findings_skips_analyzer :
    (∀ analyzer : List Finding → AnalysisDict,
      analysis_phase [] analyzer = (canned_healthy_analysis, false))
    ∧ (∀ (crs : List (String × List Finding))
        (analyzer : List Finding → AnalysisDict),
        (∀ p ∈ crs, p.2 = ([] : List Finding)) →
        aggregate_findings crs = []
        ∧ analysis_phase (aggregate_findings crs) analyzer =
            (canned_healthy_analysis, false))
    ∧ canned_healthy_analysis.risk_score = 0
    ∧ canned_healthy_analysis.critical_issues = []
    ∧ canned_healthy_analysis.executive_summary =
        "No security or configuration issues detected."
    ∧ canned_healthy_analysis.recommendations ≠ [] := by
  refine ⟨fun _ => rfl, ?_, rfl, rfl, rfl, by decide⟩
  intro crs analyzer h
  have hstamp : stampFindings crs = [] := by
    induction crs with
    | nil => rfl
    | cons p rest ih =>
      have hp := h p (List.mem_cons_self p rest)
      have hrest : ∀ q ∈ rest, q.2 = ([] : List Finding) :=
        fun q hq => h q (List.mem_cons_of_mem p hq)
      have hcons : stampFindings (p :: rest) =
          p.2.map (fun f => { f with collector_name := p.1 }) ++
            stampFindings rest := rfl
      rw [hcons, hp, ih hrest]
      rfl
  have hagg : aggregate_findings crs = [] := by
    simp [aggregate_findings, hstamp]
  exact ⟨hagg, by rw [hagg]; rfl⟩

/-- C9 witness: two collectors with no findings. -/
theorem empty_findings_skips_analyzer_witness :
    aggregate_findings [("A", []), ("B", [])] = []
    ∧ analysis_phase (aggregate_findings [("A", []), ("B", [])])
        fallback_analysis = (canned_healthy_analysis, false) :=
  empty_findings_skips_analyzer.2.1 [("A", []), ("B", [])] fallback_analysis
    (by decide)

/-! ### Theorems: the analyzer never raises past its boundary (C5) -/

/-- C5: `analyze_findings` degrades instead of raising: with no live client
it falls back without a provider call; a raised executor error, a parse
failure, and every schema-validation failure (risk score out of [0,100],
short summary, empty recommendations, script content) each return the
fallback analysis; in every case the result is either the fallback or a
validated response. -/
theorem analyze_findings_always_degrades :
    ∀ findings : List Finding,
      (∀ outcome, analyze_findings false outcome findings =
        (fallback_analysis findings, false))
      ∧ analyze_findings true .raised findings = (fallback_analysis findings, true)
      ∧ analyze_findings true .badContent findings =
          (fallback_analysis findings, true)
      ∧ (∀ r, validate_ai_response r = none →
          analyze_findings true (.parsed r) findings =
            (fallback_analysis findings, true))
      ∧ (∀ r : AnalysisDict, 100 < r.risk_score → validate_ai_response r = none)
      ∧ (∀ r : AnalysisDict, r.risk_score < 0 → validate_ai_response r = none)
      ∧ (∀ r : AnalysisDict, r.executive_summary.length < 10 →
          validate_ai_response r = none)
      ∧ (∀ r : AnalysisDict, r.recommendations = [] →
          validate_ai_response r = none)
      ∧ (∀ r : AnalysisDict, summaryClean r.executive_summary = false →
          validate_ai_response r = none)
      ∧ (∀ (hasClient : Bool) (outcome : ProviderOutcome),
          (analyze_findings hasClient outcome findings).1 =
            fallback_analysis findings
          ∨ ∃ r v, outcome = .parsed r ∧ validate_ai_response r = some v
              ∧ (analyze_findings hasClient outcome findings).1 = v) := by
  intro findings
  refine ⟨fun _ => rfl, rfl, rfl, ?_, ?_, ?_, ?_, ?_, ?_, ?_⟩
  · intro r hv
    simp [analyze_findings, hv]
  · intro r h
    unfold validate_ai_response
    rw [if_neg]
    intro hc
    exact absurd hc.2.1 (by omega)
  · intro r h
    unfold validate_ai_response
    rw [if_neg]
    intro hc
    exact absurd hc.1 (by omega)
  · intro r h
    unfold validate_ai_response
    rw [if_neg]
    intro hc
    exact absurd hc.2.2.1 (by omega)
  · intro r h
    unfold validate_ai_response
    rw [if_neg]
    intro hc
    have := hc.2.2.2.2.2.2.2.1
    rw [h] at this
    simp at this
  · intro r h
    unfold validate_ai_response
    rw [if_neg]
    intro hc
    have := hc.2.2.2.2.1
    rw [h] at this
    exact Bool.false_ne_true this
  · intro hasClient outcome
    cases hasClient with
    | false => exact Or.inl rfl
    | true =>
      cases outcome with
      | raised => exact Or.inl rfl
      | badContent => exact Or.inl rfl
      | parsed r =>
        cases hv : validate_ai_response r with
        | none =>
          left
          simp [analyze_findings, hv]
        | some v =>
          right
          exact ⟨r, v, rfl, hv, by simp [analyze_findings, hv]⟩

/-- C5 witness: a response with risk score 101 is rejected by validation and
degrades to the fallback analysis. -/
theorem analyze_findings_always_degrades_witness :
    validate_ai_response
      { risk_score := 101, executive_summary := "a long enough summary",
        critical_issues := [], recommendations := ["do something"] } = none
    ∧ analyze_findings true
        (.parsed { risk_score := 101,
                   executive_summary := "a long enough summary",
                   critical_issues := [], recommendations := ["do something"] })
        [] = (fallback_analysis [], true) := by
  have h1 := (analyze_findings_always_degrades []).2.2.2.2.1
    { risk_score := 101, executive_summary := "a long enough summary",
      critical_issues := [], recommendations := ["do something"] } (by decide)
  exact ⟨h1, (analyze_findings_always_degrades []).2.2.2.1 _ h1⟩

end AuditUtility
